import Mathlib

/-!
Shallow embedding of `app/sensors/repository.py`: a consolidation engine over
three stores (relational identity store, Mongo metadata store, Redis telemetry
cache).  The repository functions (`create_sensor`, `record_data`, `get_data`,
`delete_sensor`, `get_sensors_near`) are translated directly from the source.
The store clients (`RedisClient`, `MongoDBClient`), the ORM model and the
pydantic schemas are not part of the source tree; they are modelled from the
spec as finite maps / record types.  Numeric fields that are floats in the
source are modelled as integers: no claim depends on float arithmetic, only on
which values flow where.  Stateful Python functions become pure functions that
return the updated store states together with an `Except` result; a raised
`HTTPException(status, detail)` becomes `Err.http status detail`, and a raised
`KeyError` from direct dictionary indexing becomes `Err.keyError field`.
-/

/-- Modelled from the spec: the SensorIdentity record (`models.Sensor`,
`app/sensors/models.py` is not in the source tree): id, unique name, and the
registration timestamp `joined_at` (modelled as a natural number). -/
structure models.Sensor where
  id : Int
  name : String
  joined_at : Nat
deriving Repr, DecidableEq

/-- Modelled from the spec: the telemetry sample input shape
(`schemas.SensorData`): last_seen, battery_level, temperature, humidity,
velocity, all present on a well-formed report. -/
structure schemas.SensorData where
  last_seen : String
  battery_level : Int
  temperature : Int
  humidity : Int
  velocity : Int
deriving Repr, DecidableEq

/-- Modelled from the spec: the consolidated SensorView output shape
(`schemas.Sensor`). -/
structure schemas.Sensor where
  id : Int
  name : String
  latitude : Int
  longitude : Int
  joined_at : String
  last_seen : String
  type : String
  mac_address : String
  battery_level : Int
  temperature : Int
  humidity : Int
  velocity : Int
deriving Repr, DecidableEq

/-- Modelled from the spec: the registration input (`schemas.SensorCreate`). -/
structure schemas.SensorCreate where
  name : String
  longitude : Int
  latitude : Int
  type : String
  mac_address : String
  manufacturer : String
  model : String
  serie_number : String
  firmware_version : String
deriving Repr, DecidableEq

/-- A parsed JSON object holding dynamic data.  Every field is optional,
because the source reads it with `dict.get(key, default)`: a payload can be
valid JSON and still miss fields. -/
structure DynDict where
  last_seen : Option String
  battery_level : Option Int
  temperature : Option Int
  humidity : Option Int
  velocity : Option Int
deriving Repr, DecidableEq

/-- The empty JSON object, used by `get_sensors_near` when the cache misses. -/
def DynDict.empty : DynDict := ⟨none, none, none, none, none⟩

/-- A raw cache payload: either the well-formed JSON serialization of a
dynamic-data object, or corrupt text that fails to parse. -/
inductive CacheVal where
  | good (d : DynDict)
  | corrupt (raw : String)
deriving Repr, DecidableEq

/-- Modelled from the spec: `json.dumps` of a dynamic-data object always yields
a well-formed payload. -/
def json.dumps (d : DynDict) : CacheVal := CacheVal.good d

/-- Modelled from the spec: `json.loads` recovers the object from a well-formed
payload and fails (raises `JSONDecodeError`, here `none`) on corrupt text. -/
def json.loads : CacheVal → Option DynDict
  | CacheVal.good d => some d
  | CacheVal.corrupt _ => none

/-- Pydantic `.dict()` on a SensorData report: every field is present. -/
def schemas.SensorData.dict (d : schemas.SensorData) : DynDict :=
  ⟨some d.last_seen, some d.battery_level, some d.temperature, some d.humidity,
   some d.velocity⟩

/-- A Mongo metadata document.  `id` is the join key and is always present
(every document is inserted keyed by id); the remaining fields are optional
because the read paths access them with `.get(key, default)` and a stored
document may lack them. -/
structure SensorDocument where
  id : Int
  longitude : Option Int
  latitude : Option Int
  type : Option String
  mac_address : Option String
  manufacturer : Option String
  model : Option String
  serie_number : Option String
  firmware_version : Option String
deriving Repr, DecidableEq

/-- The relational store: the sensors table (rows in insertion order) and the
next auto-generated id. -/
structure SqlDb where
  sensors : List models.Sensor
  nextId : Int
deriving Repr, DecidableEq

/-- The Redis key-value store: a finite map from string keys to payloads. -/
structure RedisState where
  store : String → Option CacheVal

/-- The Mongo store: documents keyed by integer id, the sequence a geo query
returns (order is store-defined), and a flag modelling an infrastructure
failure of the next insert. -/
structure MongoState where
  docs : Int → Option SensorDocument
  nearResult : List SensorDocument
  failInsert : Bool

/-- Modelled from the spec: `RedisClient.get` returns the payload or a miss. -/
def RedisClient.get (r : RedisState) (key : String) : Option CacheVal :=
  r.store key

/-- Modelled from the spec: `RedisClient.set` is a last-write-wins overwrite. -/
def RedisClient.set (r : RedisState) (key : String) (v : CacheVal) : RedisState :=
  ⟨fun k => if k = key then some v else r.store k⟩

/-- Modelled from the spec: `RedisClient.delete` removes the key; deleting an
absent key is a no-op. -/
def RedisClient.delete (r : RedisState) (key : String) : RedisState :=
  ⟨fun k => if k = key then none else r.store k⟩

/-- Modelled from the spec: `MongoDBClient.get_data` looks a document up by
id. -/
def MongoDBClient.get_data (m : MongoState) (sensor_id : Int) : Option SensorDocument :=
  m.docs sensor_id

/-- Modelled from the spec: `MongoDBClient.insert_data` stores the document
keyed by its id; a store failure for infrastructure reasons (StoreUnavailable)
surfaces as an error the engine does not retry. -/
def MongoDBClient.insert_data (m : MongoState) (doc : SensorDocument) :
    Except Unit MongoState :=
  if m.failInsert then Except.error ()
  else Except.ok { m with docs := fun i => if i = doc.id then some doc else m.docs i }

/-- Modelled from the spec: `MongoDBClient.delete_data` removes the document
with the given id; deleting an absent document is a no-op. -/
def MongoDBClient.delete_data (m : MongoState) (sensor_id : Int) : MongoState :=
  { m with docs := fun i => if i = sensor_id then none else m.docs i }

/-- Modelled from the spec: `MongoDBClient.get_near_sensors` is the
store-defined geo query; the sequence it returns (and its order) is the
store's choice, carried in the state. -/
def MongoDBClient.get_near_sensors (m : MongoState)
    (latitude longitude radius : Int) : List SensorDocument :=
  m.nearResult

/-- The fixed human-readable `strftime` rendering of `joined_at`. -/
def strftimeFmt (t : Nat) : String := toString t

/-- Engine-level errors: `HTTPException(status, detail)` raised by the
repository, or a raw `KeyError(field)` from direct dictionary indexing. -/
inductive Err where
  | http (status : Nat) (detail : String)
  | keyError (field : String)
deriving Repr, DecidableEq

/-- `get_sensor` (repository.py line 12): first row of the sensors table whose
id matches. -/
def get_sensor (db : SqlDb) (sensor_id : Int) : Option models.Sensor :=
  db.sensors.find? (fun s => s.id == sensor_id)

/-- `create_sensor` (repository.py lines 24-59): commit the identity row to
SQL (obtaining the generated id), build the metadata document, insert it into
Mongo, return the SQL row.  The function returns the final SQL and Mongo
states together with the result; when the Mongo insert raises, the exception
propagates with the SQL row already committed. -/
def create_sensor (db : SqlDb) (sensor : schemas.SensorCreate)
    (mongodb : MongoState) (now : Nat) :
    SqlDb × MongoState × Except Unit models.Sensor :=
  let db_sensor : models.Sensor := { id := db.nextId, name := sensor.name, joined_at := now }
  let db' : SqlDb := { sensors := db.sensors ++ [db_sensor], nextId := db.nextId + 1 }
  let document : SensorDocument :=
    { id := db_sensor.id, longitude := some sensor.longitude,
      latitude := some sensor.latitude, type := some sensor.type,
      mac_address := some sensor.mac_address,
      manufacturer := some sensor.manufacturer, model := some sensor.model,
      serie_number := some sensor.serie_number,
      firmware_version := some sensor.firmware_version }
  match MongoDBClient.insert_data mongodb document with
  | Except.error e => (db', mongodb, Except.error e)
  | Except.ok m' => (db', m', Except.ok db_sensor)

/-- `record_data` (repository.py lines 61-116): check identity, serialize and
write the sample to Redis, check the Mongo document, parse back the string
just serialized, and build the returned view.  The metadata fields latitude,
longitude, type and mac_address are indexed directly (`document[...]`), so a
missing field raises a `KeyError`.  Returns the final Redis state and the
result. -/
def record_data (db : SqlDb) (redis : RedisState) (mongo_db : MongoState)
    (sensor_id : Int) (data : schemas.SensorData) :
    RedisState × Except Err schemas.Sensor :=
  match get_sensor db sensor_id with
  | none => (redis, Except.error (Err.http 404 ("Sensor not found in SQL database")))
  | some db_sensor =>
    let dyn_data := json.dumps data.dict
    let redis' := RedisClient.set redis (toString sensor_id) dyn_data
    match MongoDBClient.get_data mongo_db sensor_id with
    | none => (redis', Except.error (Err.http 404 ("Sensor not found in MongoDB")))
    | some document =>
      match json.loads dyn_data with
      | none => (redis', Except.error (Err.http 400 ("Error parsing data")))
      | some data_dict =>
        match document.latitude with
        | none => (redis', Except.error (Err.keyError ("latitude")))
        | some lat =>
          match document.longitude with
          | none => (redis', Except.error (Err.keyError ("longitude")))
          | some lon =>
            match document.type with
            | none => (redis', Except.error (Err.keyError ("type")))
            | some ty =>
              match document.mac_address with
              | none => (redis', Except.error (Err.keyError ("mac_address")))
              | some mac =>
                (redis', Except.ok
                  { id := document.id, name := db_sensor.name,
                    latitude := lat, longitude := lon,
                    joined_at := strftimeFmt db_sensor.joined_at,
                    last_seen := data_dict.last_seen.getD (""),
                    type := ty, mac_address := mac,
                    battery_level := data_dict.battery_level.getD 0,
                    temperature := data_dict.temperature.getD 0,
                    humidity := data_dict.humidity.getD 0,
                    velocity := data_dict.velocity.getD 0 })

/-- The consolidated view built by `get_data` (repository.py lines 157-170)
and `get_sensors_near` (lines 251-264); the two constructions are textually
identical: metadata and dynamic fields are read with `.get(key, default)`. -/
def consolidateView (db_sensor : models.Sensor) (document : SensorDocument)
    (data_dict : DynDict) : schemas.Sensor :=
  { id := db_sensor.id, name := db_sensor.name,
    latitude := document.latitude.getD 0,
    longitude := document.longitude.getD 0,
    joined_at := strftimeFmt db_sensor.joined_at,
    last_seen := data_dict.last_seen.getD (""),
    type := document.type.getD (""),
    mac_address := document.mac_address.getD (""),
    battery_level := data_dict.battery_level.getD 0,
    temperature := data_dict.temperature.getD 0,
    humidity := data_dict.humidity.getD 0,
    velocity := data_dict.velocity.getD 0 }

/-- `get_data` (repository.py lines 118-170): check identity, read the cache
(a miss raises 404), check the Mongo document, parse the payload (a parse
failure raises 400), and build the consolidated view. -/
def get_data (db : SqlDb) (redis : RedisState) (mongo_db : MongoState)
    (sensor_id : Int) : Except Err schemas.Sensor :=
  match get_sensor db sensor_id with
  | none => Except.error (Err.http 404 ("Sensor not found in SQL database"))
  | some db_sensor =>
    match RedisClient.get redis (toString sensor_id) with
    | none => Except.error (Err.http 404 ("Sensor dynamic data not found in Redis"))
    | some dyn_data =>
      match MongoDBClient.get_data mongo_db sensor_id with
      | none => Except.error (Err.http 404 ("Sensor not found in MongoDB"))
      | some document =>
        match json.loads dyn_data with
        | none => Except.error (Err.http 400 ("Error parsing dynamic data"))
        | some data_dict => Except.ok (consolidateView db_sensor document data_dict)

/-- `delete_sensor` (repository.py lines 173-209): look the row up (the query
is inlined in the source, identical to `get_sensor`), raise 404 if absent,
delete the row from SQL, then the document from Mongo, then the key from
Redis, and return the deleted row.  Returns the three final store states and
the result. -/
def delete_sensor (db : SqlDb) (mongo_db : MongoState) (redis : RedisState)
    (sensor_id : Int) :
    SqlDb × MongoState × RedisState × Except Err models.Sensor :=
  match db.sensors.find? (fun s => s.id == sensor_id) with
  | none => (db, mongo_db, redis, Except.error (Err.http 404 ("Sensor not found")))
  | some db_sensor =>
    let db' : SqlDb := { db with sensors := db.sensors.eraseP (fun s => s.id == sensor_id) }
    let mongo' := MongoDBClient.delete_data mongo_db sensor_id
    let redis' := RedisClient.delete redis (toString sensor_id)
    (db', mongo', redis', Except.ok db_sensor)

/-- The loop body of `get_sensors_near` (repository.py lines 231-264) over the
sequence of documents the geo query returned: a document whose identity row is
missing is skipped; a cache miss degrades to the empty dynamic dict; an
unparsable payload raises 400, aborting the whole call (the views accumulated
so far are discarded). -/
def get_sensors_near_loop (db : SqlDb) (redis : RedisState) :
    List SensorDocument → Except Err (List schemas.Sensor)
  | [] => Except.ok []
  | document :: rest =>
    match get_sensor db document.id with
    | none => get_sensors_near_loop db redis rest
    | some db_sensor =>
      match RedisClient.get redis (toString document.id) with
      | none =>
        (get_sensors_near_loop db redis rest).map
          (fun views => consolidateView db_sensor document DynDict.empty :: views)
      | some dyn_data =>
        match json.loads dyn_data with
        | none =>
          Except.error (Err.http 400
            ("Error parsing data for sensor " ++ toString document.id))
        | some data_dict =>
          (get_sensors_near_loop db redis rest).map
            (fun views => consolidateView db_sensor document data_dict :: views)

/-- `get_sensors_near` (repository.py lines 210-266): run the geo query, then
join each returned document back to SQL and Redis. -/
def get_sensors_near (db : SqlDb) (redis : RedisState) (mongodb : MongoState)
    (latitude longitude radius : Int) : Except Err (List schemas.Sensor) :=
  get_sensors_near_loop db redis
    (MongoDBClient.get_near_sensors mongodb latitude longitude radius)

/-- The dynamic dict a surviving entry of `get_sensors_near` ends up with, when
the loop does not abort: the empty dict on a cache miss, the parsed payload
otherwise (`none` marks the unparsable case, which aborts the loop). -/
def dictFor (redis : RedisState) (sensor_id : Int) : Option DynDict :=
  match RedisClient.get redis (toString sensor_id) with
  | none => some DynDict.empty
  | some dyn_data => json.loads dyn_data

/-- The view `get_sensors_near` produces for one document, `none` when the
document is dropped (identity missing) or would abort the loop (corrupt
payload). -/
def surviveView (db : SqlDb) (redis : RedisState) (d : SensorDocument) :
    Option schemas.Sensor :=
  match get_sensor db d.id with
  | none => none
  | some s =>
    match dictFor redis d.id with
    | none => none
    | some dd => some (consolidateView s d dd)

/-- Example identity row with id 1. -/
def exSensor : models.Sensor := { id := 1, name := "alpha", joined_at := 5 }

/-- Example identity row with id 2. -/
def exSensor2 : models.Sensor := { id := 2, name := "beta", joined_at := 6 }

/-- Example SQL store holding only sensor 1. -/
def exDb : SqlDb := { sensors := [exSensor], nextId := 2 }

/-- Example SQL store holding sensors 1 and 2. -/
def exDb2 : SqlDb := { sensors := [exSensor, exSensor2], nextId := 3 }

/-- Example metadata document for sensor 1 with every field present. -/
def exDoc : SensorDocument :=
  { id := 1, longitude := some 3, latitude := some 4, type := some "rpi",
    mac_address := some "aa:bb", manufacturer := some "acme",
    model := some "m1", serie_number := some "sn1",
    firmware_version := some "fw1" }

/-- Example metadata document for sensor 2 with every field present. -/
def exDoc2 : SensorDocument :=
  { id := 2, longitude := some 7, latitude := some 8, type := some "esp",
    mac_address := some "cc:dd", manufacturer := some "acme",
    model := some "m2", serie_number := some "sn2",
    firmware_version := some "fw2" }

/-- Example metadata document for sensor 1 lacking every optional field. -/
def exDocBare : SensorDocument :=
  { id := 1, longitude := none, latitude := none, type := none,
    mac_address := none, manufacturer := none, model := none,
    serie_number := none, firmware_version := none }

/-- Example Mongo store holding the document of sensor 1. -/
def exMongo : MongoState :=
  { docs := fun i => if i = 1 then some exDoc else none,
    nearResult := [exDoc], failInsert := false }

/-- Example Mongo store holding the documents of sensors 1 and 2; the geo
query returns both, sensor 1 first. -/
def exMongo2 : MongoState :=
  { docs := fun i => if i = 1 then some exDoc else if i = 2 then some exDoc2 else none,
    nearResult := [exDoc, exDoc2], failInsert := false }

/-- Example Mongo store like exMongo2 but with the geo query returning sensor
2's document before sensor 1's. -/
def exMongo2Rev : MongoState :=
  { docs := fun i => if i = 1 then some exDoc else if i = 2 then some exDoc2 else none,
    nearResult := [exDoc2, exDoc], failInsert := false }

/-- Example Mongo store whose document for sensor 1 lacks every optional
field. -/
def exMongoBare : MongoState :=
  { docs := fun i => if i = 1 then some exDocBare else none,
    nearResult := [exDocBare], failInsert := false }

/-- Example empty Mongo store. -/
def exMongoNone : MongoState :=
  { docs := fun _ => none, nearResult := [], failInsert := false }

/-- Example Mongo store whose next insert fails for infrastructure reasons. -/
def exMongoFail : MongoState :=
  { docs := fun _ => none, nearResult := [], failInsert := true }

/-- Example empty Redis store. -/
def exRedisEmpty : RedisState := ⟨fun _ => none⟩

/-- Example telemetry sample. -/
def exSample : schemas.SensorData :=
  { last_seen := "2024-03-01", battery_level := 77, temperature := 21,
    humidity := 40, velocity := 5 }

/-- Example Redis store holding a corrupt payload under key "1". -/
def exRedisCorrupt : RedisState :=
  ⟨fun k => if k = "1" then some (CacheVal.corrupt ("xx")) else none⟩

/-- Example Redis store: corrupt payload under key "1", well-formed sample
under key "2". -/
def exRedisMixed : RedisState :=
  ⟨fun k =>
    if k = "1" then some (CacheVal.corrupt ("xx"))
    else if k = "2" then some (CacheVal.good exSample.dict) else none⟩

/-- Example Redis store holding the well-formed sample under key "1". -/
def exRedisGood : RedisState :=
  ⟨fun k => if k = "1" then some (CacheVal.good exSample.dict) else none⟩

/-- Example registration input. -/
def exCreate : schemas.SensorCreate :=
  { name := "gamma", longitude := 9, latitude := 10, type := "rpi",
    mac_address := "ee:ff", manufacturer := "acme", model := "m3",
    serie_number := "sn3", firmware_version := "fw3" }

/-- The Redis state after sensor 1 reports the example sample. -/
def exRedisAfter : RedisState :=
  RedisClient.set exRedisEmpty (toString (1 : Int)) (json.dumps exSample.dict)

/-- The view a successful report of the example sample by sensor 1 returns. -/
def exView : schemas.Sensor :=
  { id := 1, name := "alpha", latitude := 4, longitude := 3,
    joined_at := "5", last_seen := "2024-03-01", type := "rpi",
    mac_address := "aa:bb", battery_level := 77, temperature := 21,
    humidity := 40, velocity := 5 }

/-- Claim C1 counterexample: sensor 1 is registered (identity and metadata
exist) and its telemetry cache entry is absent, yet `get_data` returns a 404
error instead of a view with default dynamic fields. -/
theorem C1_counterexample :
    get_sensor exDb 1 = some exSensor ∧
    MongoDBClient.get_data exMongo 1 = some exDoc ∧
    RedisClient.get exRedisEmpty (toString (1 : Int)) = none ∧
    get_data exDb exRedisEmpty exMongo 1 =
      Except.error (Err.http 404 ("Sensor dynamic data not found in Redis")) :=
  ⟨rfl, rfl, rfl, rfl⟩

/-- Claim C1 (amended): for every sensor id whose identity and metadata exist
but whose telemetry cache entry is absent, `get_data` does not return a
default-filled view: it fails with HTTP 404 ("Sensor dynamic data not found in
Redis"). -/
theorem C1_amended (db : SqlDb) (redis : RedisState) (mongo : MongoState)
    (sensor_id : Int) (s : models.Sensor) (doc : SensorDocument)
    (hs : get_sensor db sensor_id = some s)
    (hm : MongoDBClient.get_data mongo sensor_id = some doc)
    (hr : RedisClient.get redis (toString sensor_id) = none) :
    get_data db redis mongo sensor_id =
      Except.error (Err.http 404 ("Sensor dynamic data not found in Redis")) := by
  unfold get_data
  rw [hs, hr]

/-- Claim C1 witness: the amended statement evaluated on the concrete
registered-but-never-reported sensor 1. -/
theorem C1_witness :
    get_data exDb exRedisEmpty exMongo 1 =
      Except.error (Err.http 404 ("Sensor dynamic data not found in Redis")) :=
  C1_amended exDb exRedisEmpty exMongo 1 exSensor exDoc rfl rfl rfl

/-- Claim C3: for every sensor id with no identity record, `record_data`
returns the 404 SensorNotFound error and the Redis state it returns is the
input state unchanged — the failed call creates no cache entry. -/
theorem C3_record_unregistered (db : SqlDb) (redis : RedisState)
    (mongo : MongoState) (sensor_id : Int) (data : schemas.SensorData)
    (h : get_sensor db sensor_id = none) :
    record_data db redis mongo sensor_id data =
      (redis, Except.error (Err.http 404 ("Sensor not found in SQL database"))) := by
  unfold record_data
  rw [h]

/-- Claim C3 witness: telemetry for unregistered id 99 is rejected with the
cache untouched. -/
theorem C3_witness :
    record_data exDb exRedisEmpty exMongo 99 exSample =
      (exRedisEmpty,
       Except.error (Err.http 404 ("Sensor not found in SQL database"))) :=
  C3_record_unregistered exDb exRedisEmpty exMongo 99 exSample rfl

/-- Claim C8: for every sensor id whose identity and metadata exist and whose
cache payload is present but unparsable, `get_data` returns the typed 400
CorruptTelemetry error, which is distinct from each of the three 404 errors
(identity missing, metadata missing, cache miss). -/
theorem C8_corrupt_telemetry (db : SqlDb) (redis : RedisState)
    (mongo : MongoState) (sensor_id : Int) (s : models.Sensor)
    (doc : SensorDocument) (raw : String)
    (hs : get_sensor db sensor_id = some s)
    (hr : RedisClient.get redis (toString sensor_id) = some (CacheVal.corrupt raw))
    (hm : MongoDBClient.get_data mongo sensor_id = some doc) :
    get_data db redis mongo sensor_id =
      Except.error (Err.http 400 ("Error parsing dynamic data")) ∧
    Err.http 400 ("Error parsing dynamic data") ≠
      Err.http 404 ("Sensor not found in SQL database") ∧
    Err.http 400 ("Error parsing dynamic data") ≠
      Err.http 404 ("Sensor not found in MongoDB") ∧
    Err.http 400 ("Error parsing dynamic data") ≠
      Err.http 404 ("Sensor dynamic data not found in Redis") := by
  refine ⟨?_, by decide, by decide, by decide⟩
  unfold get_data
  rw [hs, hr, hm]
  rfl

/-- Claim C8 witness: the corrupt payload of sensor 1 yields the 400 error. -/
theorem C8_witness :
    get_data exDb exRedisCorrupt exMongo 1 =
      Except.error (Err.http 400 ("Error parsing dynamic data")) :=
  (C8_corrupt_telemetry exDb exRedisCorrupt exMongo 1 exSensor exDoc ("xx")
    rfl rfl rfl).1

/-- Claim C9: when the identity exists but the metadata fragment is missing,
`record_data` fails with 404 — and the Redis state it returns already holds
the sample just serialized under the sensor's key, because the cache write
precedes the metadata existence check. -/
theorem C9_nonatomic_failure (db : SqlDb) (redis : RedisState)
    (mongo : MongoState) (sensor_id : Int) (data : schemas.SensorData)
    (s : models.Sensor)
    (hs : get_sensor db sensor_id = some s)
    (hm : MongoDBClient.get_data mongo sensor_id = none) :
    record_data db redis mongo sensor_id data =
      (RedisClient.set redis (toString sensor_id) (json.dumps data.dict),
       Except.error (Err.http 404 ("Sensor not found in MongoDB"))) ∧
    (record_data db redis mongo sensor_id data).1.store (toString sensor_id) =
      some (json.dumps data.dict) := by
  have h1 : record_data db redis mongo sensor_id data =
      (RedisClient.set redis (toString sensor_id) (json.dumps data.dict),
       Except.error (Err.http 404 ("Sensor not found in MongoDB"))) := by
    unfold record_data
    rw [hs, hm]
  refine ⟨h1, ?_⟩
  rw [h1]
  simp [RedisClient.set]

/-- Claim C9 witness: sensor 1 has an identity but no metadata document; the
failed report leaves its sample in the cache. -/
theorem C9_witness :
    (record_data exDb exRedisEmpty exMongoNone 1 exSample).2 =
      Except.error (Err.http 404 ("Sensor not found in MongoDB")) ∧
    (record_data exDb exRedisEmpty exMongoNone 1 exSample).1.store ("1") =
      some (json.dumps exSample.dict) := by
  have h := C9_nonatomic_failure exDb exRedisEmpty exMongoNone 1 exSample exSensor rfl rfl
  exact ⟨by rw [h.1], h.2⟩

/-- Claim C2 counterexample: the geo query returns sensors 1 and 2; sensor 1's
cache payload is corrupt while sensor 2 is perfectly retrievable, yet
`get_sensors_near` aborts the whole batch with a 400 error instead of
degrading sensor 1 to defaults and returning sensor 2's view. -/
theorem C2_counterexample :
    RedisClient.get exRedisMixed (toString (2 : Int)) =
      some (CacheVal.good exSample.dict) ∧
    get_sensor exDb2 2 = some exSensor2 ∧
    get_sensors_near exDb2 exRedisMixed exMongo2 0 0 10 =
      Except.error (Err.http 400 ("Error parsing data for sensor 1")) :=
  ⟨rfl, rfl, rfl⟩

/-- Claim C6 counterexample: with the metadata insert failing after identity
creation, `create_sensor` propagates the error while the new identity row
(id 2) is already committed and the Mongo store is left untouched — an
identity-only ghost sensor, with no compensating delete and no retry. -/
theorem C6_counterexample :
    (create_sensor exDb exCreate exMongoFail 7).2.2 = Except.error () ∧
    get_sensor (create_sensor exDb exCreate exMongoFail 7).1 2 =
      some { id := 2, name := "gamma", joined_at := 7 } ∧
    MongoDBClient.get_data (create_sensor exDb exCreate exMongoFail 7).2.1 2 = none ∧
    (create_sensor exDb exCreate exMongoFail 7).2.1 = exMongoFail :=
  ⟨rfl, rfl, rfl, rfl⟩

/-- Claim C6 (amended): if the metadata insert fails after identity creation
succeeds, `create_sensor` surfaces the failure with the identity row already
committed, performs no compensating delete and no retry, and leaves the Mongo
store exactly as it was. -/
theorem C6_amended (db : SqlDb) (sensor : schemas.SensorCreate)
    (mongodb : MongoState) (now : Nat)
    (hfail : mongodb.failInsert = true) :
    create_sensor db sensor mongodb now =
      ({ sensors := db.sensors ++
           [{ id := db.nextId, name := sensor.name, joined_at := now }],
         nextId := db.nextId + 1 },
       mongodb, Except.error ()) := by
  simp [create_sensor, MongoDBClient.insert_data, hfail]

/-- Claim C6 witness: the amended statement evaluated on the concrete failing
insert. -/
theorem C6_witness :
    create_sensor exDb exCreate exMongoFail 7 =
      ({ sensors := exDb.sensors ++
           [{ id := exDb.nextId, name := exCreate.name, joined_at := 7 }],
         nextId := exDb.nextId + 1 },
       exMongoFail, Except.error ()) :=
  C6_amended exDb exCreate exMongoFail 7 rfl

/-- Claim C10: on a metadata document lacking latitude, longitude, type and
mac_address, `get_data` and the `get_sensors_near` loop still succeed, and the
view substitutes the defaults 0, 0, "", ""; `record_data` on the same document
instead raises a KeyError from direct indexing. -/
theorem C10_missing_fields (db : SqlDb) (redis : RedisState)
    (mongo : MongoState) (sensor_id : Int) (s : models.Sensor)
    (doc : SensorDocument) (dd : DynDict) (data : schemas.SensorData)
    (hs : get_sensor db sensor_id = some s)
    (hr : RedisClient.get redis (toString sensor_id) = some (CacheVal.good dd))
    (hm : MongoDBClient.get_data mongo sensor_id = some doc)
    (hid : doc.id = sensor_id)
    (hlat : doc.latitude = none) (hlon : doc.longitude = none)
    (hty : doc.type = none) (hmac : doc.mac_address = none) :
    get_data db redis mongo sensor_id = Except.ok (consolidateView s doc dd) ∧
    get_sensors_near_loop db redis [doc] =
      Except.ok [consolidateView s doc dd] ∧
    (consolidateView s doc dd).latitude = 0 ∧
    (consolidateView s doc dd).longitude = 0 ∧
    (consolidateView s doc dd).type = ("") ∧
    (consolidateView s doc dd).mac_address = ("") ∧
    (record_data db redis mongo sensor_id data).2 =
      Except.error (Err.keyError ("latitude")) := by
  refine ⟨?_, ?_, ?_, ?_, ?_, ?_, ?_⟩
  · unfold get_data
    rw [hs, hr, hm]
    rfl
  · simp only [get_sensors_near_loop, hid, hs, hr, json.loads, Except.map]
  · simp [consolidateView, hlat]
  · simp [consolidateView, hlon]
  · simp [consolidateView, hty]
  · simp [consolidateView, hmac]
  · simp only [record_data, hs, hm, json.dumps, json.loads, hlat]

/-- Claim C4: a successful `record_data` returns a view whose dynamic fields
equal exactly the sample passed in (the view is built from the value just
serialized, not a cache re-read), and `get_data` on the resulting Redis state
returns a view with the same dynamic field values. -/
theorem C4_roundtrip (db : SqlDb) (redis : RedisState) (mongo : MongoState)
    (sensor_id : Int) (data : schemas.SensorData) (redis' : RedisState)
    (view : schemas.Sensor)
    (h : record_data db redis mongo sensor_id data = (redis', Except.ok view)) :
    view.last_seen = data.last_seen ∧ view.battery_level = data.battery_level ∧
    view.temperature = data.temperature ∧ view.humidity = data.humidity ∧
    view.velocity = data.velocity ∧
    ∃ view2 : schemas.Sensor,
      get_data db redis' mongo sensor_id = Except.ok view2 ∧
      view2.last_seen = data.last_seen ∧
      view2.battery_level = data.battery_level ∧
      view2.temperature = data.temperature ∧
      view2.humidity = data.humidity ∧
      view2.velocity = data.velocity := by
  simp only [record_data] at h
  cases hs : get_sensor db sensor_id with
  | none =>
    rw [hs] at h
    simp at h
  | some db_sensor =>
    rw [hs] at h
    cases hm : MongoDBClient.get_data mongo sensor_id with
    | none =>
      rw [hm] at h
      simp at h
    | some document =>
      rw [hm] at h
      simp only [json.dumps, json.loads] at h
      cases hlat : document.latitude with
      | none => rw [hlat] at h; simp at h
      | some lat =>
        rw [hlat] at h
        cases hlon : document.longitude with
        | none => rw [hlon] at h; simp at h
        | some lon =>
          rw [hlon] at h
          cases hty : document.type with
          | none => rw [hty] at h; simp at h
          | some ty =>
            rw [hty] at h
            cases hmac : document.mac_address with
            | none => rw [hmac] at h; simp at h
            | some mac =>
              rw [hmac] at h
              simp only [Prod.mk.injEq, Except.ok.injEq] at h
              obtain ⟨hre, hv⟩ := h
              subst hre
              subst hv
              refine ⟨?_, ?_, ?_, ?_, ?_, ?_⟩
              · simp [schemas.SensorData.dict]
              · simp [schemas.SensorData.dict]
              · simp [schemas.SensorData.dict]
              · simp [schemas.SensorData.dict]
              · simp [schemas.SensorData.dict]
              · refine ⟨consolidateView db_sensor document data.dict, ?_, ?_, ?_, ?_, ?_, ?_⟩
                · simp [get_data, hs, hm, RedisClient.get, RedisClient.set,
                    json.dumps, json.loads]
                · simp [consolidateView, schemas.SensorData.dict]
                · simp [consolidateView, schemas.SensorData.dict]
                · simp [consolidateView, schemas.SensorData.dict]
                · simp [consolidateView, schemas.SensorData.dict]
                · simp [consolidateView, schemas.SensorData.dict]

/-- Claim C4 witness: the round trip evaluated on registered sensor 1 and the
concrete sample. -/
theorem C4_witness :
    exView.last_seen = exSample.last_seen ∧
    exView.battery_level = exSample.battery_level ∧
    exView.temperature = exSample.temperature ∧
    exView.humidity = exSample.humidity ∧
    exView.velocity = exSample.velocity ∧
    ∃ view2 : schemas.Sensor,
      get_data exDb exRedisAfter exMongo 1 = Except.ok view2 ∧
      view2.last_seen = exSample.last_seen ∧
      view2.battery_level = exSample.battery_level ∧
      view2.temperature = exSample.temperature ∧
      view2.humidity = exSample.humidity ∧
      view2.velocity = exSample.velocity :=
  C4_roundtrip exDb exRedisEmpty exMongo 1 exSample exRedisAfter exView rfl

/-- Helper: erasing the first match from a list holding at most one match
leaves a list with no match. -/
theorem find?_eraseP_of_countP_le_one {α : Type} (p : α → Bool) (l : List α)
    (h : l.countP p ≤ 1) : (l.eraseP p).find? p = none := by
  induction l with
  | nil => rfl
  | cons x xs ih =>
    by_cases hx : p x
    · rw [List.eraseP_cons_of_pos hx]
      have hcount : xs.countP p = 0 := by
        rw [List.countP_cons_of_pos p xs hx] at h
        omega
      rw [List.find?_eq_none]
      intro a ha
      exact List.countP_eq_zero.mp hcount a ha
    · rw [List.eraseP_cons_of_neg hx, List.find?_cons_of_neg _ hx]
      apply ih
      rw [List.countP_cons_of_neg p xs hx] at h
      exact h

/-- Claim C5: `delete_sensor` fails with 404 when the identity row is absent;
when it exists (ids unique, as the primary key guarantees), it returns the
deleted identity record, afterwards no fragment of the id remains in the SQL
table, the Mongo store, or Redis, and a second `delete_sensor` for the same id
returns 404. -/
theorem C5_delete (db : SqlDb) (mongo : MongoState) (redis : RedisState)
    (sensor_id : Int) :
    (db.sensors.find? (fun x => x.id == sensor_id) = none →
      delete_sensor db mongo redis sensor_id =
        (db, mongo, redis, Except.error (Err.http 404 ("Sensor not found")))) ∧
    (∀ s : models.Sensor,
      db.sensors.find? (fun x => x.id == sensor_id) = some s →
      db.sensors.countP (fun x => x.id == sensor_id) ≤ 1 →
      delete_sensor db mongo redis sensor_id =
        ({ db with sensors := db.sensors.eraseP (fun x => x.id == sensor_id) },
         MongoDBClient.delete_data mongo sensor_id,
         RedisClient.delete redis (toString sensor_id),
         Except.ok s) ∧
      ({ db with sensors := db.sensors.eraseP (fun x => x.id == sensor_id) } : SqlDb).sensors.find?
          (fun x => x.id == sensor_id) = none ∧
      (MongoDBClient.delete_data mongo sensor_id).docs sensor_id = none ∧
      (RedisClient.delete redis (toString sensor_id)).store (toString sensor_id) = none ∧
      delete_sensor
          { db with sensors := db.sensors.eraseP (fun x => x.id == sensor_id) }
          (MongoDBClient.delete_data mongo sensor_id)
          (RedisClient.delete redis (toString sensor_id)) sensor_id =
        ({ db with sensors := db.sensors.eraseP (fun x => x.id == sensor_id) },
         MongoDBClient.delete_data mongo sensor_id,
         RedisClient.delete redis (toString sensor_id),
         Except.error (Err.http 404 ("Sensor not found")))) := by
  constructor
  · intro h
    unfold delete_sensor
    rw [h]
  · intro s hfind hcount
    have herase : (db.sensors.eraseP (fun x => x.id == sensor_id)).find?
        (fun x => x.id == sensor_id) = none :=
      find?_eraseP_of_countP_le_one _ _ hcount
    refine ⟨?_, herase, ?_, ?_, ?_⟩
    · unfold delete_sensor
      rw [hfind]
    · simp [MongoDBClient.delete_data]
    · simp [RedisClient.delete]
    · unfold delete_sensor
      rw [herase]

/-- Claim C5 witness: deleting sensor 1 from the concrete stores removes every
fragment and returns the deleted row. -/
theorem C5_witness :
    delete_sensor exDb exMongo exRedisGood 1 =
      ({ exDb with sensors := exDb.sensors.eraseP (fun x => x.id == 1) },
       MongoDBClient.delete_data exMongo 1,
       RedisClient.delete exRedisGood (toString (1 : Int)),
       Except.ok exSensor) ∧
    (MongoDBClient.delete_data exMongo 1).docs 1 = none ∧
    (RedisClient.delete exRedisGood (toString (1 : Int))).store
      (toString (1 : Int)) = none := by
  have h := (C5_delete exDb exMongo exRedisGood 1).2 exSensor rfl (by decide)
  exact ⟨h.1, h.2.2.1, h.2.2.2.1⟩

/-- Helper: when the near loop succeeds, its output is exactly the
per-document survival map of the input sequence (so order is preserved and
nothing is re-sorted), and every document whose identity row exists
contributes a view. -/
theorem near_loop_characterization (db : SqlDb) (redis : RedisState)
    (docs : List SensorDocument) (vs : List schemas.Sensor)
    (h : get_sensors_near_loop db redis docs = Except.ok vs) :
    vs = docs.filterMap (surviveView db redis) ∧
    ∀ d ∈ docs, (get_sensor db d.id).isSome → (surviveView db redis d).isSome := by
  induction docs generalizing vs with
  | nil =>
    simp only [get_sensors_near_loop, Except.ok.injEq] at h
    subst h
    simp
  | cons d rest ih =>
    simp only [get_sensors_near_loop] at h
    cases hs : get_sensor db d.id with
    | none =>
      rw [hs] at h
      obtain ⟨h1, h2⟩ := ih vs h
      constructor
      · rw [h1, List.filterMap_cons]
        simp [surviveView, hs]
      · intro d' hd' hsome
        rcases List.mem_cons.mp hd' with rfl | hmem
        · rw [hs] at hsome
          simp at hsome
        · exact h2 d' hmem hsome
    | some s =>
      rw [hs] at h
      cases hr : RedisClient.get redis (toString d.id) with
      | none =>
        rw [hr] at h
        cases hrest : get_sensors_near_loop db redis rest with
        | error e =>
          rw [hrest] at h
          simp [Except.map] at h
        | ok views =>
          rw [hrest] at h
          simp only [Except.map, Except.ok.injEq] at h
          subst h
          obtain ⟨h1, h2⟩ := ih views hrest
          have hsv : surviveView db redis d =
              some (consolidateView s d DynDict.empty) := by
            simp [surviveView, hs, dictFor, hr]
          constructor
          · rw [List.filterMap_cons, hsv, h1]
          · intro d' hd' hsome
            rcases List.mem_cons.mp hd' with rfl | hmem
            · simp [hsv]
            · exact h2 d' hmem hsome
      | some cv =>
        rw [hr] at h
        cases hl : json.loads cv with
        | none =>
          simp [hl] at h
        | some dd =>
          simp only [hl] at h
          cases hrest : get_sensors_near_loop db redis rest with
          | error e =>
            rw [hrest] at h
            simp [Except.map] at h
          | ok views =>
            rw [hrest] at h
            simp only [Except.map, Except.ok.injEq] at h
            subst h
            obtain ⟨h1, h2⟩ := ih views hrest
            have hsv : surviveView db redis d = some (consolidateView s d dd) := by
              simp [surviveView, hs, dictFor, hr, hl]
            constructor
            · rw [List.filterMap_cons, hsv, h1]
            · intro d' hd' hsome
              rcases List.mem_cons.mp hd' with rfl | hmem
              · simp [hsv]
              · exact h2 d' hmem hsome

/-- Claim C7: whenever `get_sensors_near` succeeds, the returned views are
obtained from the sequence the metadata store returned by dropping exactly
the documents whose identity row is missing (those raise no error, and every
document with an identity contributes a view), keeping the store's order with
no re-sorting. -/
theorem C7_near_skip_order (db : SqlDb) (redis : RedisState)
    (mongo : MongoState) (latitude longitude radius : Int)
    (vs : List schemas.Sensor)
    (h : get_sensors_near db redis mongo latitude longitude radius = Except.ok vs) :
    vs = (MongoDBClient.get_near_sensors mongo latitude longitude radius).filterMap
        (surviveView db redis) ∧
    ∀ d ∈ MongoDBClient.get_near_sensors mongo latitude longitude radius,
      (get_sensor db d.id).isSome → (surviveView db redis d).isSome :=
  near_loop_characterization db redis
    (MongoDBClient.get_near_sensors mongo latitude longitude radius) vs h

/-- Claim C7 witness: the geo query returns the documents of sensors 1 and 2
but only sensor 1 has an identity row; the query skips sensor 2's document
and returns sensor 1's view. -/
theorem C7_witness :
    [consolidateView exSensor exDoc DynDict.empty] =
      (MongoDBClient.get_near_sensors exMongo2 0 0 10).filterMap
        (surviveView exDb exRedisEmpty) :=
  (C7_near_skip_order exDb exRedisEmpty exMongo2 0 0 10
    [consolidateView exSensor exDoc DynDict.empty] rfl).1

/-- Claim C10 witness: on the concrete bare document of sensor 1, the read
paths succeed with defaults while `record_data` raises the KeyError. -/
theorem C10_witness :
    get_data exDb exRedisGood exMongoBare 1 =
      Except.ok (consolidateView exSensor exDocBare exSample.dict) ∧
    (record_data exDb exRedisGood exMongoBare 1 exSample).2 =
      Except.error (Err.keyError ("latitude")) := by
  have h := C10_missing_fields exDb exRedisGood exMongoBare 1 exSensor exDocBare
    exSample.dict exSample rfl rfl rfl rfl rfl rfl rfl rfl
  exact ⟨h.1, h.2.2.2.2.2.2⟩

/-- Helper: the only error the near loop ever produces is the HTTP 400 parse
error for some sensor id. -/
theorem near_loop_error_shape (db : SqlDb) (redis : RedisState)
    (docs : List SensorDocument) (e : Err)
    (h : get_sensors_near_loop db redis docs = Except.error e) :
    ∃ sid : Int,
      e = Err.http 400 ("Error parsing data for sensor " ++ toString sid) := by
  induction docs with
  | nil => simp [get_sensors_near_loop] at h
  | cons d rest ih =>
    simp only [get_sensors_near_loop] at h
    cases hs : get_sensor db d.id with
    | none =>
      rw [hs] at h
      exact ih h
    | some s =>
      rw [hs] at h
      cases hr : RedisClient.get redis (toString d.id) with
      | none =>
        rw [hr] at h
        cases hrest : get_sensors_near_loop db redis rest with
        | error e2 =>
          rw [hrest] at h
          simp only [Except.map, Except.error.injEq] at h
          subst h
          exact ih hrest
        | ok views =>
          rw [hrest] at h
          simp [Except.map] at h
      | some cv =>
        rw [hr] at h
        cases hl : json.loads cv with
        | none =>
          simp only [hl, Except.error.injEq] at h
          exact ⟨d.id, h.symm⟩
        | some dd =>
          simp only [hl] at h
          cases hrest : get_sensors_near_loop db redis rest with
          | error e2 =>
            rw [hrest] at h
            simp only [Except.map, Except.error.injEq] at h
            subst h
            exact ih hrest
          | ok views =>
            rw [hrest] at h
            simp [Except.map] at h

/-- Claim C2 (amended): in `get_sensors_near` only a cache miss degrades to
default dynamic values; if any document of the geo result — at any position —
has an identity row and a cache payload that is present but unparsable, the
whole query fails with an HTTP 400 parse error, so no view is returned for
any sensor of the batch. -/
theorem C2_amended (db : SqlDb) (redis : RedisState) (mongo : MongoState)
    (latitude longitude radius : Int) (d : SensorDocument)
    (s : models.Sensor) (raw : String)
    (hd : d ∈ MongoDBClient.get_near_sensors mongo latitude longitude radius)
    (hs : get_sensor db d.id = some s)
    (hr : RedisClient.get redis (toString d.id) = some (CacheVal.corrupt raw)) :
    (∀ vs : List schemas.Sensor,
      get_sensors_near db redis mongo latitude longitude radius ≠ Except.ok vs) ∧
    ∃ sid : Int,
      get_sensors_near db redis mongo latitude longitude radius =
        Except.error (Err.http 400
          ("Error parsing data for sensor " ++ toString sid)) := by
  have hnotok : ∀ vs : List schemas.Sensor,
      get_sensors_near db redis mongo latitude longitude radius ≠ Except.ok vs := by
    intro vs hok
    obtain ⟨-, hall⟩ := near_loop_characterization db redis
      (MongoDBClient.get_near_sensors mongo latitude longitude radius) vs hok
    have hsome := hall d hd (by rw [hs]; rfl)
    have hsv : surviveView db redis d = none := by
      simp [surviveView, hs, dictFor, hr, json.loads]
    rw [hsv] at hsome
    simp at hsome
  refine ⟨hnotok, ?_⟩
  cases hres : get_sensors_near db redis mongo latitude longitude radius with
  | ok vs => exact absurd hres (hnotok vs)
  | error e =>
    obtain ⟨sid, hsid⟩ := near_loop_error_shape db redis
      (MongoDBClient.get_near_sensors mongo latitude longitude radius) e hres
    exact ⟨sid, by rw [hsid]⟩

/-- Claim C2 witness: the amended statement evaluated on a batch where the
healthy sensor 2 comes before the corrupt sensor 1; the whole query still
fails with the 400 parse error and sensor 2's already-built view is
discarded. -/
theorem C2_witness :
    (∀ vs : List schemas.Sensor,
      get_sensors_near exDb2 exRedisMixed exMongo2Rev 0 0 10 ≠ Except.ok vs) ∧
    ∃ sid : Int,
      get_sensors_near exDb2 exRedisMixed exMongo2Rev 0 0 10 =
        Except.error (Err.http 400
          ("Error parsing data for sensor " ++ toString sid)) :=
  C2_amended exDb2 exRedisMixed exMongo2Rev 0 0 10 exDoc exSensor ("xx")
    (by decide) rfl rfl
